import Mathlib

/-!
# Verification of the Chandur-Hess preload calculation core

Shallow embedding of the two calculation modules (`src/core/preload.py` and
`src/core/torque.py`) of the Chandur-Hess-Preload-Calculator repository.
Python floats are modelled as real numbers; a Python function that can raise
is modelled as returning `Except PyError α`, where `PyError` distinguishes
the explicit `ValueError` guards from an arithmetic `ZeroDivisionError`
(which Python raises on float division by zero).
-/

open Real

/-- The error kinds the core can raise: the explicit `ValueError` guards
(with their message) and Python's `ZeroDivisionError` on float division
by zero. -/
inductive PyError where
  | valueError (msg : String)
  | zeroDivisionError
deriving DecidableEq

/-- `calculate_preload` from `src/core/preload.py` (Wadhwani-Hess Equation 3):
`P = (Tt - Tr) * π / p`, raising `ValueError` when `thread_pitch ≤ 0`. -/
noncomputable def calculate_preload (tightening_torque removal_torque thread_pitch : ℝ) :
    Except PyError ℝ :=
  if thread_pitch ≤ 0 then
    .error (.valueError "Thread pitch must be greater than zero")
  else
    .ok ((tightening_torque - removal_torque) * Real.pi / thread_pitch)

/-- `calculate_final_torque` from `src/core/preload.py`.  The Python body
always evaluates `ratio_method = initial_torque * (desired_preload / initial_preload)`
before selecting a result, so when `initial_preload = 0` the call raises
`ZeroDivisionError` even though the exact method does not read
`initial_preload`. -/
noncomputable def calculate_final_torque
    (initial_torque removal_torque initial_preload desired_preload thread_pitch : ℝ)
    (use_ratio_method : Bool := false) : Except PyError ℝ :=
  if thread_pitch ≤ 0 then
    .error (.valueError "Thread pitch must be greater than zero")
  else if initial_torque ≤ removal_torque then
    .error (.valueError "Initial torque must be greater than removal torque")
  else if initial_preload = 0 then
    .error .zeroDivisionError
  else
    let ratio_method := initial_torque * (desired_preload / initial_preload)
    let exact_method :=
      (thread_pitch * initial_torque * desired_preload) /
        (Real.pi * (initial_torque - removal_torque))
    .ok (if use_ratio_method then ratio_method else exact_method)

/-- `calculate_self_loosening` from `src/core/preload.py`: `(Tt - Tr) / 2`. -/
noncomputable def calculate_self_loosening (tightening_torque removal_torque : ℝ) : ℝ :=
  (tightening_torque - removal_torque) / 2

/-- `calculate_primary_locking` from `src/core/preload.py`: `(Tt + Tr) / 2`. -/
noncomputable def calculate_primary_locking (tightening_torque removal_torque : ℝ) : ℝ :=
  (tightening_torque + removal_torque) / 2

/-- `estimate_preload_from_torque` from `src/core/torque.py`:
`F = T / (K * d)` with `ValueError` guards on `screw_diameter ≤ 0` and
`k_factor ≤ 0`. -/
noncomputable def estimate_preload_from_torque (torque screw_diameter : ℝ)
    (k_factor : ℝ := 0.2) : Except PyError ℝ :=
  if screw_diameter ≤ 0 then
    .error (.valueError "Screw diameter must be positive")
  else if k_factor ≤ 0 then
    .error (.valueError "k_factor must be positive")
  else
    .ok (torque / (k_factor * screw_diameter))

/-- `calculate_stress_from_preload` from `src/core/torque.py`:
`σ = F / A` with a `ValueError` guard on `tensile_area ≤ 0`. -/
noncomputable def calculate_stress_from_preload (preload tensile_area : ℝ) :
    Except PyError ℝ :=
  if tensile_area ≤ 0 then
    .error (.valueError "Tensile area must be positive")
  else
    .ok (preload / tensile_area)

/-- `calculate_safety_factor` from `src/core/torque.py`:
`SF = yield_strength / stress` with `ValueError` guards on `stress ≤ 0`
and `yield_strength ≤ 0`. -/
noncomputable def calculate_safety_factor (stress yield_strength : ℝ) :
    Except PyError ℝ :=
  if stress ≤ 0 then
    .error (.valueError "Stress must be positive")
  else if yield_strength ≤ 0 then
    .error (.valueError "Yield strength must be positive")
  else
    .ok (yield_strength / stress)

/-- `assess_risk` from `src/core/torque.py`: three-band classification with
fixed recommendation strings, raising `ValueError` when `safety_factor < 0`. -/
noncomputable def assess_risk (safety_factor : ℝ) (min_safety_factor : ℝ := 1.5) :
    Except PyError (String × String) :=
  if safety_factor < 0 then
    .error (.valueError "Safety factor must be positive")
  else if safety_factor > 3.0 then
    .ok ("Low", "Safe for use with standard protocol")
  else if safety_factor ≥ min_safety_factor then
    .ok ("Medium", "Safe for use, but consider more frequent check-ups")
  else
    .ok ("High", "Not recommended, consider alternative implant system or reduced loading")

/-- `calculate_tensile_area` from `src/core/torque.py`:
`A_t = (π/4) * (d - 0.9382 * p)^2` with `ValueError` guards on either
input being `≤ 0`. -/
noncomputable def calculate_tensile_area (nominal_diameter thread_pitch : ℝ) :
    Except PyError ℝ :=
  if nominal_diameter ≤ 0 then
    .error (.valueError "Nominal diameter must be positive")
  else if thread_pitch ≤ 0 then
    .error (.valueError "Thread pitch must be positive")
  else
    .ok ((Real.pi / 4) * (nominal_diameter - 0.9382 * thread_pitch) ^ 2)

/-- C1: for `Tt > Tr ≥ 0` and `p > 0`, `calculate_preload` returns
`(Tt - Tr) * π / p`; the returned value is strictly increasing in the
difference `Tt - Tr` and strictly decreasing in the pitch `p`. -/
theorem C1_calculate_preload_formula_and_monotone
    (Tt Tr p : ℝ) (hTt : Tt > Tr) (hTr : Tr ≥ 0) (hp : p > 0) :
    calculate_preload Tt Tr p = .ok ((Tt - Tr) * Real.pi / p) ∧
    (∀ Tt' Tr' v v', Tt - Tr < Tt' - Tr' →
      calculate_preload Tt Tr p = .ok v → calculate_preload Tt' Tr' p = .ok v' →
      v < v') ∧
    (∀ p' v v', 0 < p' → p < p' →
      calculate_preload Tt Tr p = .ok v → calculate_preload Tt Tr p' = .ok v' →
      v' < v) := by
  have hp' : ¬ p ≤ 0 := not_le.mpr hp
  have hform : calculate_preload Tt Tr p = .ok ((Tt - Tr) * Real.pi / p) := by
    unfold calculate_preload
    rw [if_neg hp']
  refine ⟨hform, ?_, ?_⟩
  · intro Tt' Tr' v v' hdiff hv hv'
    rw [hform] at hv
    unfold calculate_preload at hv'
    rw [if_neg hp'] at hv'
    have hv1 : v = (Tt - Tr) * Real.pi / p := by
      exact (Except.ok.injEq _ _).mp hv.symm
    have hv2 : v' = (Tt' - Tr') * Real.pi / p := by
      exact (Except.ok.injEq _ _).mp hv'.symm
    rw [hv1, hv2]
    have hπ : (0:ℝ) < Real.pi := Real.pi_pos
    exact div_lt_div_of_pos_right (by nlinarith) hp
  · intro p' v v' hp0' hpp hv hv'
    rw [hform] at hv
    unfold calculate_preload at hv'
    rw [if_neg (not_le.mpr hp0')] at hv'
    have hv1 : v = (Tt - Tr) * Real.pi / p := by
      exact (Except.ok.injEq _ _).mp hv.symm
    have hv2 : v' = (Tt - Tr) * Real.pi / p' := by
      exact (Except.ok.injEq _ _).mp hv'.symm
    rw [hv1, hv2]
    have hnum : (0:ℝ) < (Tt - Tr) * Real.pi := by
      have := Real.pi_pos
      nlinarith
    exact div_lt_div_of_pos_left hnum hp hpp

/-- Witness for C1 at `Tt = 2, Tr = 1, p = 1` (with comparison points
`Tt' = 3, Tr' = 0` and `p' = 2`). -/
theorem C1_calculate_preload_formula_and_monotone_witness :
    calculate_preload 2 1 1 = .ok ((2 - 1) * Real.pi / 1) ∧
    (∀ Tt' Tr' v v', (2:ℝ) - 1 < Tt' - Tr' →
      calculate_preload 2 1 1 = .ok v → calculate_preload Tt' Tr' 1 = .ok v' →
      v < v') ∧
    (∀ p' v v', (0:ℝ) < p' → (1:ℝ) < p' →
      calculate_preload 2 1 1 = .ok v → calculate_preload 2 1 p' = .ok v' →
      v' < v) :=
  C1_calculate_preload_formula_and_monotone 2 1 1 (by norm_num) (by norm_num) (by norm_num)

/-- C8: `calculate_self_loosening(Tt, Tr) + calculate_primary_locking(Tt, Tr) = Tt`
exactly, since `(Tt - Tr)/2 + (Tt + Tr)/2 = Tt`. -/
theorem C8_loosening_plus_locking_eq_tightening (Tt Tr : ℝ) :
    calculate_self_loosening Tt Tr + calculate_primary_locking Tt Tr = Tt := by
  unfold calculate_self_loosening calculate_primary_locking
  ring

/-- C6: `calculate_preload` raises exactly when `thread_pitch ≤ 0`; with
`Tt < Tr` and `p > 0` it returns the negative value `(Tt - Tr) * π / p`
rather than failing. -/
theorem C6_preload_error_iff_and_permissive (Tt Tr p : ℝ) :
    ((∃ e, calculate_preload Tt Tr p = .error e) ↔ p ≤ 0) ∧
    (Tt < Tr → 0 < p →
      calculate_preload Tt Tr p = .ok ((Tt - Tr) * Real.pi / p) ∧
      (Tt - Tr) * Real.pi / p < 0) := by
  constructor
  · constructor
    · rintro ⟨e, he⟩
      by_contra hp
      unfold calculate_preload at he
      rw [if_neg hp] at he
      exact absurd he (by simp)
    · intro hp
      exact ⟨_, by unfold calculate_preload; rw [if_pos hp]⟩
  · intro hlt hp
    have hp' : ¬ p ≤ 0 := not_le.mpr hp
    refine ⟨by unfold calculate_preload; rw [if_neg hp'], ?_⟩
    apply div_neg_of_neg_of_pos _ hp
    nlinarith [Real.pi_pos]

/-- Witness for C6 at `Tt = 1, Tr = 2, p = 1`: a negative preload is
returned, not an error. -/
theorem C6_preload_error_iff_and_permissive_witness :
    calculate_preload 1 2 1 = .ok ((1 - 2) * Real.pi / 1) ∧
    ((1:ℝ) - 2) * Real.pi / 1 < 0 :=
  (C6_preload_error_iff_and_permissive 1 2 1).2 (by norm_num) (by norm_num)

/-- C2: when `initial_preload` was produced by `calculate_preload` on the
same `(Tt, Tr, p)` triple with `Tt > Tr` and `p > 0`, the exact method and
the ratio method of `calculate_final_torque` agree within `0.01` (they are
in fact equal). -/
theorem C2_final_torque_methods_agree
    (Tt Tr p Pd P0 : ℝ) (h1 : Tt > Tr) (hp : p > 0)
    (hP : calculate_preload Tt Tr p = .ok P0) :
    ∃ t1 t2,
      calculate_final_torque Tt Tr P0 Pd p false = .ok t1 ∧
      calculate_final_torque Tt Tr P0 Pd p true = .ok t2 ∧
      |t1 - t2| ≤ 0.01 := by
  have hp' : ¬ p ≤ 0 := not_le.mpr hp
  have hT' : ¬ Tt ≤ Tr := not_le.mpr h1
  unfold calculate_preload at hP
  rw [if_neg hp'] at hP
  have hP0 : P0 = (Tt - Tr) * Real.pi / p := by
    exact ((Except.ok.injEq _ _).mp hP).symm
  have hsub : 0 < Tt - Tr := sub_pos.mpr h1
  have hpos : 0 < P0 := by
    rw [hP0]
    positivity
  have hne : ¬ P0 = 0 := ne_of_gt hpos
  refine ⟨(p * Tt * Pd) / (Real.pi * (Tt - Tr)), Tt * (Pd / P0), ?_, ?_, ?_⟩
  · unfold calculate_final_torque
    rw [if_neg hp', if_neg hT', if_neg hne]
    simp
  · unfold calculate_final_torque
    rw [if_neg hp', if_neg hT', if_neg hne]
    simp
  · have heq : (p * Tt * Pd) / (Real.pi * (Tt - Tr)) = Tt * (Pd / P0) := by
      rw [hP0]
      have hπ : Real.pi ≠ 0 := Real.pi_ne_zero
      have hs : Tt - Tr ≠ 0 := ne_of_gt hsub
      have hpz : p ≠ 0 := ne_of_gt hp
      field_simp
      ring
    rw [heq, sub_self, abs_zero]
    norm_num

/-- Witness for C2 at `Tt = 2, Tr = 1, p = 1, Pd = 5`. -/
theorem C2_final_torque_methods_agree_witness :
    ∃ t1 t2,
      calculate_final_torque 2 1 ((2 - 1) * Real.pi / 1) 5 1 false = .ok t1 ∧
      calculate_final_torque 2 1 ((2 - 1) * Real.pi / 1) 5 1 true = .ok t2 ∧
      |t1 - t2| ≤ 0.01 :=
  C2_final_torque_methods_agree 2 1 1 5 ((2 - 1) * Real.pi / 1)
    (by norm_num) (by norm_num)
    (by unfold calculate_preload; rw [if_neg (by norm_num)])

/-- C3 counterexample: `calculate_preload 35 21.4 0.04` returns `340π ≈ 1068.1`,
which is not within `0.1` of `282.7` (the claim's `35` should be `25`). -/
theorem C3_counterexample_preload_at_35 :
    calculate_preload 35 21.4 0.04 = .ok ((35 - 21.4) * Real.pi / 0.04) ∧
    ¬ |(35 - 21.4) * Real.pi / 0.04 - 282.7| ≤ 0.1 := by
  constructor
  · unfold calculate_preload
    rw [if_neg (by norm_num)]
  · have hx : (35 - 21.4) * Real.pi / 0.04 = 340 * Real.pi := by ring
    rw [hx]
    intro habs
    rw [abs_le] at habs
    have h1 : (3.141592:ℝ) < Real.pi := Real.pi_gt_d6
    linarith [habs.2]

/-- C3 amended: with `Tt = 25` (the literature example), the initial preload
is `≈ 282.7 N` and the final torque for a desired preload of `400 N` is
`≈ 35.4 N·cm`, each within `0.1`. -/
theorem C3_amended_example_values :
    calculate_preload 25 21.4 0.04 = .ok ((25 - 21.4) * Real.pi / 0.04) ∧
    |(25 - 21.4) * Real.pi / 0.04 - 282.7| ≤ 0.1 ∧
    calculate_final_torque 25 21.4 282.7 400 0.04 false =
      .ok ((0.04 * 25 * 400) / (Real.pi * (25 - 21.4))) ∧
    |(0.04 * 25 * 400) / (Real.pi * (25 - 21.4)) - 35.4| ≤ 0.1 := by
  have hπ1 : (3.141592:ℝ) < Real.pi := Real.pi_gt_d6
  have hπ2 : Real.pi < 3.141593 := Real.pi_lt_d6
  refine ⟨?_, ?_, ?_, ?_⟩
  · unfold calculate_preload
    rw [if_neg (by norm_num)]
  · have hx : ((25:ℝ) - 21.4) * Real.pi / 0.04 = 90 * Real.pi := by ring
    rw [hx, abs_le]
    constructor <;> nlinarith
  · unfold calculate_final_torque
    rw [if_neg (by norm_num), if_neg (by norm_num), if_neg (by norm_num)]
    simp
  · have hd : (0:ℝ) < Real.pi * (25 - 21.4) := by nlinarith
    have he : ((0.04:ℝ) * 25 * 400) / (Real.pi * (25 - 21.4)) * (Real.pi * (25 - 21.4))
        = 0.04 * 25 * 400 := div_mul_cancel₀ _ (ne_of_gt hd)
    rw [abs_le]
    constructor <;> nlinarith [he, hd]

/-- C4: with the default `min_safety_factor = 1.5`, `assess_risk` errors
exactly when `sf < 0`, classifies `sf > 3` as Low, `1.5 ≤ sf ≤ 3` as
Medium, and `0 ≤ sf < 1.5` as High, with the High recommendation containing
"not recommended" case-insensitively. -/
theorem C4_assess_risk_bands (sf : ℝ) :
    ((∃ e, assess_risk sf 1.5 = .error e) ↔ sf < 0) ∧
    (sf > 3.0 →
      assess_risk sf 1.5 = .ok ("Low", "Safe for use with standard protocol")) ∧
    (1.5 ≤ sf → sf ≤ 3.0 →
      assess_risk sf 1.5 = .ok ("Medium", "Safe for use, but consider more frequent check-ups")) ∧
    (0 ≤ sf → sf < 1.5 →
      ∃ rec, assess_risk sf 1.5 = .ok ("High", rec) ∧
        ∃ pre post, pre ++ "not recommended".toList ++ post = rec.toList.map Char.toLower) := by
  refine ⟨?_, ?_, ?_, ?_⟩
  · constructor
    · rintro ⟨e, he⟩
      by_contra hneg
      unfold assess_risk at he
      rw [if_neg hneg] at he
      by_cases h3 : sf > 3.0
      · rw [if_pos h3] at he
        exact absurd he (by simp)
      · rw [if_neg h3] at he
        by_cases hm : sf ≥ 1.5
        · rw [if_pos hm] at he
          exact absurd he (by simp)
        · rw [if_neg hm] at he
          exact absurd he (by simp)
    · intro h
      exact ⟨_, by unfold assess_risk; rw [if_pos h]⟩
  · intro h3
    unfold assess_risk
    rw [if_neg (by push_neg; linarith), if_pos h3]
  · intro h15 h3
    unfold assess_risk
    rw [if_neg (by push_neg; linarith), if_neg (by push_neg; linarith), if_pos h15]
  · intro h0 h15
    refine ⟨"Not recommended, consider alternative implant system or reduced loading",
      ?_, ?_⟩
    · unfold assess_risk
      rw [if_neg (by push_neg; linarith), if_neg (by push_neg; linarith),
        if_neg (by push_neg; linarith)]
    · exact ⟨[], ", consider alternative implant system or reduced loading".toList, by decide⟩

/-- Witness for C4 at `sf = 4, 2, 1` and `-1`. -/
theorem C4_assess_risk_bands_witness :
    assess_risk 4 1.5 = .ok ("Low", "Safe for use with standard protocol") ∧
    assess_risk 2 1.5 = .ok ("Medium", "Safe for use, but consider more frequent check-ups") ∧
    (∃ rec, assess_risk 1 1.5 = .ok ("High", rec) ∧
      ∃ pre post, pre ++ "not recommended".toList ++ post = rec.toList.map Char.toLower) ∧
    (∃ e, assess_risk (-1) 1.5 = .error e) :=
  ⟨(C4_assess_risk_bands 4).2.1 (by norm_num),
   (C4_assess_risk_bands 2).2.2.1 (by norm_num) (by norm_num),
   (C4_assess_risk_bands 1).2.2.2 (by norm_num) (by norm_num),
   ((C4_assess_risk_bands (-1)).1).mpr (by norm_num)⟩

/-- C10: the Low band is checked before the caller-supplied minimum, so any
`sf > 3` is classified Low for every `min_safety_factor m`, even when `sf < m`. -/
theorem C10_low_band_overrides_min (sf m : ℝ) (h3 : sf > 3.0) :
    assess_risk sf m = .ok ("Low", "Safe for use with standard protocol") := by
  unfold assess_risk
  rw [if_neg (by push_neg; linarith), if_pos h3]

/-- Witness for C10 at `sf = 3.5, m = 4`: Low although `3.5 < 4`. -/
theorem C10_low_band_overrides_min_witness :
    (3.5:ℝ) < 4 ∧
    assess_risk 3.5 4 = .ok ("Low", "Safe for use with standard protocol") :=
  ⟨by norm_num, C10_low_band_overrides_min 3.5 4 (by norm_num)⟩

/-- C5 counterexample: at `d = 0.9382, p = 1` the tensile area is exactly 0,
and `calculate_stress_from_preload` then raises, so the composition is not
error-free for every positive input. -/
theorem C5_counterexample_zero_area :
    (0:ℝ) < 0.9382 ∧ (0:ℝ) < 1 ∧
    calculate_tensile_area 0.9382 1 = .ok 0 ∧
    estimate_preload_from_torque 1 0.9382 1 = .ok (1 / (1 * 0.9382)) ∧
    calculate_stress_from_preload (1 / (1 * 0.9382)) 0 =
      .error (.valueError "Tensile area must be positive") := by
  refine ⟨by norm_num, by norm_num, ?_, ?_, ?_⟩
  · unfold calculate_tensile_area
    rw [if_neg (by norm_num), if_neg (by norm_num)]
    norm_num
  · unfold estimate_preload_from_torque
    rw [if_neg (by norm_num), if_neg (by norm_num)]
  · unfold calculate_stress_from_preload
    rw [if_pos (by norm_num)]

/-- C5 amended: for all positive inputs with `d ≠ 0.9382 * p`, the
composition of `estimate_preload_from_torque`, `calculate_tensile_area`,
`calculate_stress_from_preload` and `calculate_safety_factor` succeeds and
yields a positive safety factor. -/
theorem C5_amended_roundtrip_positive
    (d p T K Y : ℝ) (hd : 0 < d) (hp : 0 < p) (hT : 0 < T) (hK : 0 < K)
    (hY : 0 < Y) (hne : d ≠ 0.9382 * p) :
    ∃ F A σ sf,
      estimate_preload_from_torque T d K = .ok F ∧
      calculate_tensile_area d p = .ok A ∧
      calculate_stress_from_preload F A = .ok σ ∧
      calculate_safety_factor σ Y = .ok sf ∧
      0 < sf := by
  have hdiff : d - 0.9382 * p ≠ 0 := sub_ne_zero.mpr hne
  have hApos : 0 < (Real.pi / 4) * (d - 0.9382 * p) ^ 2 := by positivity
  have hσ : 0 < (T / (K * d)) / ((Real.pi / 4) * (d - 0.9382 * p) ^ 2) := by positivity
  refine ⟨T / (K * d), (Real.pi / 4) * (d - 0.9382 * p) ^ 2,
    (T / (K * d)) / ((Real.pi / 4) * (d - 0.9382 * p) ^ 2),
    Y / ((T / (K * d)) / ((Real.pi / 4) * (d - 0.9382 * p) ^ 2)),
    ?_, ?_, ?_, ?_, ?_⟩
  · unfold estimate_preload_from_torque
    rw [if_neg (not_le.mpr hd), if_neg (not_le.mpr hK)]
  · unfold calculate_tensile_area
    rw [if_neg (not_le.mpr hd), if_neg (not_le.mpr hp)]
  · unfold calculate_stress_from_preload
    rw [if_neg (not_le.mpr hApos)]
  · unfold calculate_safety_factor
    rw [if_neg (not_le.mpr hσ), if_neg (not_le.mpr hY)]
  · positivity

/-- Witness for C5 amended at `d = p = T = K = Y = 1`. -/
theorem C5_amended_roundtrip_positive_witness :
    ∃ F A σ sf,
      estimate_preload_from_torque 1 1 1 = .ok F ∧
      calculate_tensile_area 1 1 = .ok A ∧
      calculate_stress_from_preload F A = .ok σ ∧
      calculate_safety_factor σ 1 = .ok sf ∧
      0 < sf :=
  C5_amended_roundtrip_positive 1 1 1 1 1 (by norm_num) (by norm_num)
    (by norm_num) (by norm_num) (by norm_num) (by norm_num)

/-- C7 counterexample: at `p = 1 > 0` and `Tt = 1 > Tr = 0` but
`initial_preload = 0`, `calculate_final_torque` raises `ZeroDivisionError`
instead of returning a result. -/
theorem C7_counterexample_zero_preload :
    ¬ ((1:ℝ) ≤ 0) ∧ ¬ ((1:ℝ) ≤ (0:ℝ)) ∧
    calculate_final_torque 1 0 0 1 1 false = .error .zeroDivisionError := by
  refine ⟨by norm_num, by norm_num, ?_⟩
  unfold calculate_final_torque
  rw [if_neg (by norm_num), if_neg (by norm_num), if_pos rfl]

/-- C7 amended: `calculate_final_torque` raises `ValueError` exactly when
`p ≤ 0` or `Tt ≤ Tr`; for other inputs it returns a result when
`initial_preload ≠ 0` and raises `ZeroDivisionError` (from the always
evaluated ratio expression) when `initial_preload = 0`. -/
theorem C7_amended_final_torque_errors
    (Tt Tr P0 Pd p : ℝ) (b : Bool) :
    ((∃ msg, calculate_final_torque Tt Tr P0 Pd p b = .error (.valueError msg)) ↔
      p ≤ 0 ∨ Tt ≤ Tr) ∧
    (0 < p → Tr < Tt → P0 ≠ 0 →
      ∃ t, calculate_final_torque Tt Tr P0 Pd p b = .ok t) ∧
    (0 < p → Tr < Tt → P0 = 0 →
      calculate_final_torque Tt Tr P0 Pd p b = .error .zeroDivisionError) := by
  refine ⟨⟨?_, ?_⟩, ?_, ?_⟩
  · rintro ⟨msg, hmsg⟩
    by_contra hcon
    push_neg at hcon
    obtain ⟨hp, hT⟩ := hcon
    unfold calculate_final_torque at hmsg
    rw [if_neg (not_le.mpr hp), if_neg (not_le.mpr hT)] at hmsg
    by_cases hz : P0 = 0
    · rw [if_pos hz] at hmsg
      exact absurd hmsg (by simp)
    · rw [if_neg hz] at hmsg
      exact absurd hmsg (by simp)
  · intro h
    by_cases hp : p ≤ 0
    · exact ⟨_, by unfold calculate_final_torque; rw [if_pos hp]⟩
    · rcases h with h | hT
      · exact absurd h hp
      · exact ⟨_, by unfold calculate_final_torque; rw [if_neg hp, if_pos hT]⟩
  · intro hp hT hz
    refine ⟨if b then Tt * (Pd / P0) else p * Tt * Pd / (Real.pi * (Tt - Tr)), ?_⟩
    unfold calculate_final_torque
    rw [if_neg (not_le.mpr hp), if_neg (not_le.mpr hT), if_neg hz]
  · intro hp hT hz
    unfold calculate_final_torque
    rw [if_neg (not_le.mpr hp), if_neg (not_le.mpr hT), if_pos hz]

/-- Witness for C7 amended: a success, a zero-division failure and a
`ValueError` failure at concrete inputs. -/
theorem C7_amended_final_torque_errors_witness :
    (∃ t, calculate_final_torque 2 1 3 4 1 false = .ok t) ∧
    calculate_final_torque 2 1 0 4 1 false = .error .zeroDivisionError ∧
    (∃ msg, calculate_final_torque 2 1 3 4 0 false = .error (.valueError msg)) :=
  ⟨(C7_amended_final_torque_errors 2 1 3 4 1 false).2.1
      (by norm_num) (by norm_num) (by norm_num),
   (C7_amended_final_torque_errors 2 1 0 4 1 false).2.2
      (by norm_num) (by norm_num) rfl,
   ((C7_amended_final_torque_errors 2 1 3 4 0 false).1).mpr (Or.inl (by norm_num))⟩

/-- C9 counterexample: two calls differing only in `initial_preload`
(1 versus 0), with `p = 1 > 0` and `Tt = 1 > Tr = 0`, do not return equal
results: the second raises `ZeroDivisionError`. -/
theorem C9_counterexample_zero_preload_raises :
    (0:ℝ) < 1 ∧ (0:ℝ) < 1 ∧
    calculate_final_torque 1 0 1 1 1 false ≠ calculate_final_torque 1 0 0 1 1 false := by
  refine ⟨by norm_num, by norm_num, ?_⟩
  have h1 : calculate_final_torque 1 0 1 1 1 false
      = .ok ((1 * 1 * 1) / (Real.pi * (1 - 0))) := by
    unfold calculate_final_torque
    rw [if_neg (by norm_num), if_neg (by norm_num), if_neg (by norm_num)]
    simp
  have h2 : calculate_final_torque 1 0 0 1 1 false = .error .zeroDivisionError := by
    unfold calculate_final_torque
    rw [if_neg (by norm_num), if_neg (by norm_num), if_pos rfl]
  rw [h1, h2]
  simp

/-- C9 amended: with `use_ratio_method = false`, `p > 0` and `Tt > Tr`, the
result is independent of `initial_preload` as long as both supplied values
are nonzero. -/
theorem C9_amended_exact_method_ignores_preload
    (Tt Tr P1 P2 Pd p : ℝ) (hp : 0 < p) (hT : Tr < Tt)
    (h1 : P1 ≠ 0) (h2 : P2 ≠ 0) :
    calculate_final_torque Tt Tr P1 Pd p false =
      calculate_final_torque Tt Tr P2 Pd p false := by
  have e1 : calculate_final_torque Tt Tr P1 Pd p false
      = .ok (p * Tt * Pd / (Real.pi * (Tt - Tr))) := by
    unfold calculate_final_torque
    rw [if_neg (not_le.mpr hp), if_neg (not_le.mpr hT), if_neg h1]
    simp
  have e2 : calculate_final_torque Tt Tr P2 Pd p false
      = .ok (p * Tt * Pd / (Real.pi * (Tt - Tr))) := by
    unfold calculate_final_torque
    rw [if_neg (not_le.mpr hp), if_neg (not_le.mpr hT), if_neg h2]
    simp
  rw [e1, e2]

/-- Witness for C9 amended at `P1 = 1, P2 = 2`. -/
theorem C9_amended_exact_method_ignores_preload_witness :
    calculate_final_torque 1 0 1 1 1 false = calculate_final_torque 1 0 2 1 1 false :=
  C9_amended_exact_method_ignores_preload 1 0 1 2 1 1
    (by norm_num) (by norm_num) (by norm_num) (by norm_num)
